import Mathlib

/-!
Shallow embedding of the emdash local reverse proxy engine
(`LocalProxyService`): route-name validation, the route registry, the
start/stop lifecycle with port selection, HTTP request dispatch,
WebSocket-upgrade dispatch, and lifecycle events.

Strings are modelled as `List Char` (`Str`).  Wall-clock readings
(`new Date().toISOString()`) are modelled by a `now : Str` parameter to
each operation that timestamps.  The I/O environment (which ports the
bind-and-release probe finds free, which port the OS hands out for an
ephemeral bind, whether the engine's real `listen` succeeds) is modelled
by a `PortEnv` record of oracles.
-/

set_option maxRecDepth 20000

abbrev Str := List Char

/-- Char class `[a-z0-9]` of the slug grammar. -/
def isLowerAlnum (c : Char) : Bool :=
  ('a' ≤ c && c ≤ 'z') || c.isDigit

/-- Char class `[a-z0-9-]`. -/
def isSlugChar (c : Char) : Bool :=
  isLowerAlnum c || c == '-'

/-- Matcher for the optional group `([a-z0-9-]*[a-z0-9])?` of `SLUG_RE`:
empty, or a nonempty `[a-z0-9-]` string whose last char is `[a-z0-9]`. -/
def slugTail (s : Str) : Bool :=
  s.isEmpty || (s.all isSlugChar && isLowerAlnum (s.getLastD ' '))

/-- `SLUG_RE.test`: anchored match of `^[a-z0-9]([a-z0-9-]*[a-z0-9])?$`. -/
def slugTest : Str → Bool
  | [] => false
  | c :: rest => isLowerAlnum c && slugTail rest

/-- Matcher for the capture group `[a-z0-9][a-z0-9-]*[a-z0-9]?` of the
`extractSubdomain` regex: nonempty, first char `[a-z0-9]`, remaining chars
`[a-z0-9-]` (the trailing optional `[a-z0-9]?` adds no strings beyond
`[a-z0-9][a-z0-9-]*`). -/
def subPat : Str → Bool
  | [] => false
  | c :: rest => isLowerAlnum c && rest.all isSlugChar

/-- Matcher for the optional group `(:\d+)?`: empty, or `:` followed by one
or more digits. -/
def portPart : Str → Bool
  | [] => true
  | ':' :: ds => !ds.isEmpty && ds.all Char.isDigit
  | _ => false

/-- `extractSubdomain`: anchored match of
`^([a-z0-9][a-z0-9-]*[a-z0-9]?)\.localhost(:\d+)?$` against the Host
header (the empty string when the header is absent), returning the capture
group.  Because the group's char class excludes `.`, an anchored match, if
any, splits the host at its first `.`; the remainder must be `localhost`
followed by an optional `:digits` port. -/
def extractSubdomain (host : Str) : Option Str :=
  let sub := host.takeWhile (fun c => c != '.')
  let rest := host.dropWhile (fun c => c != '.')
  if subPat sub then
    match rest with
    | '.' :: r2 =>
        if r2.take 9 == "localhost".toList && portPart (r2.drop 9) then
          some sub
        else
          none
    | _ => none
  else none

/-- `DEFAULT_PORTS = [9000, 9001, 9002, 9100]`. -/
def DEFAULT_PORTS : List Nat := [9000, 9001, 9002, 9100]

/-- Oracles for the I/O environment of port selection and startup. -/
structure PortEnv where
  /-- whether the bind-and-release probe (`tryPort`) on a port succeeds -/
  tryPortOk : Nat → Bool
  /-- the port the OS assigns when binding port 0 (ephemeral fallback) -/
  osPort : Nat
  /-- whether the engine's real `listen` on a port succeeds -/
  bindOk : Nat → Bool
  /-- message of the error the failed real bind raises -/
  errMsg : Str

/-- The `for (const p of preferred) if (await tryPort(p)) return p` loop of
`pickAvailablePort`. -/
def pickLoop (tryOk : Nat → Bool) : List Nat → Option Nat
  | [] => none
  | p :: rest => if tryOk p then some p else pickLoop tryOk rest

/-- `pickAvailablePort`: first candidate whose probe succeeds; otherwise the
ephemeral fallback binds port 0 and returns `addr.port || 9000` (the OS
port, or 9000 when it reads as 0 / the close errors). -/
def pickAvailablePort (env : PortEnv) (preferred : List Nat) : Nat :=
  match pickLoop env.tryPortOk preferred with
  | some p => p
  | none => if env.osPort = 0 then 9000 else env.osPort

/-- Candidate list built in `start`:
`port ? [port, ...DEFAULT_PORTS] : DEFAULT_PORTS` (0 is falsy in JS). -/
def buildCandidates : Option Nat → List Nat
  | some p => if p = 0 then DEFAULT_PORTS else p :: DEFAULT_PORTS
  | none => DEFAULT_PORTS

/-- `ProxyRouteStatus` from the shared types. -/
inductive ProxyRouteStatus
  | starting
  | running
  | stopped
  | error
deriving DecidableEq, Repr

/-- `ProxyRoute` record from the shared types. -/
structure ProxyRoute where
  name : Str
  targetPort : Nat
  targetHost : Str
  status : ProxyRouteStatus
  taskId : Option Str
  url : Str
  registeredAt : Str
  lastAccessed : Option Str
deriving DecidableEq, Repr

/-- `ProxyState` snapshot from the shared types. -/
structure ProxyState where
  running : Bool
  port : Option Nat
  routes : List ProxyRoute
deriving DecidableEq, Repr

/-- The six `PROXY_EVENT_TYPES`. -/
inductive EvKind
  | started
  | stopped
  | routeAdded
  | routeRemoved
  | routeStatus
  | error
deriving DecidableEq, Repr

/-- The literal event-type strings of `PROXY_EVENT_TYPES`. -/
def evName : EvKind → Str
  | .started => "started".toList
  | .stopped => "stopped".toList
  | .routeAdded => "route:added".toList
  | .routeRemoved => "route:removed".toList
  | .routeStatus => "route:status".toList
  | .error => "error".toList

/-- A `ProxyEvent` as built by `emitProxyEvent` (payload plus timestamp). -/
structure ProxyEvent where
  type : EvKind
  route : Option ProxyRoute := none
  error : Option Str := none
  timestamp : Str
deriving DecidableEq, Repr

/-- Engine state: `server` (whether `this.server !== null`), the
insertion-ordered `routes` map, and `port`. -/
structure EngineState where
  server : Bool
  routes : List (Str × ProxyRoute)
  port : Option Nat
deriving DecidableEq, Repr

/-- The engine's initial state: not running, empty registry, no port. -/
def initState : EngineState :=
  { server := false, routes := [], port := none }

/-- `Map.get` on the registry (keys are unique; `set` only appends fresh
keys, so the first hit is the entry). -/
def mapGet (m : List (Str × ProxyRoute)) (k : Str) : Option ProxyRoute :=
  (m.find? (fun kv => kv.1 == k)).map (fun kv => kv.2)

/-- `Map.delete` on the registry. -/
def mapDelete (m : List (Str × ProxyRoute)) (k : Str) : List (Str × ProxyRoute) :=
  m.filter (fun kv => !(kv.1 == k))

/-- In-place mutation `route.lastAccessed = new Date().toISOString()`. -/
def setLastAccessed (m : List (Str × ProxyRoute)) (k : Str) (now : Str) :
    List (Str × ProxyRoute) :=
  m.map (fun kv =>
    if kv.1 == k then (kv.1, { kv.2 with lastAccessed := some now }) else kv)

/-- Decimal rendering of a `Nat`, as JS template interpolation produces. -/
def natStr (n : Nat) : Str := (toString n).toList

/-- JS template interpolation of `this.port` (`null` renders as "null"). -/
def jsPortString : Option Nat → Str
  | some p => natStr p
  | none => "null".toList

/-- `opts?.targetHost || '127.0.0.1'` (undefined and the empty string are
both falsy). -/
def jsHostOrDefault : Option Str → Str
  | some h => if h.isEmpty then "127.0.0.1".toList else h
  | none => "127.0.0.1".toList

/-- Result record of `start`. -/
structure StartResult where
  ok : Bool
  port : Option Nat := none
  error : Option Str := none
deriving DecidableEq, Repr

/-- `start(port?)`: no-op success when the server exists; otherwise pick a
port, bind; on success record server and port and publish `started`; on
bind failure publish `error` (the `srv.on('error')` handler) and resolve
`ok: false` with no state change. -/
def start (env : PortEnv) (now : Str) (st : EngineState) (pport : Option Nat) :
    StartResult × EngineState × List ProxyEvent :=
  if st.server then
    ({ ok := true, port := st.port }, st, [])
  else
    let chosen := pickAvailablePort env (buildCandidates pport)
    if env.bindOk chosen then
      ({ ok := true, port := some chosen },
       { st with server := true, port := some chosen },
       [{ type := .started, timestamp := now }])
    else
      ({ ok := false,
         error := some ("Failed to listen on port ".toList ++ natStr chosen) },
       st,
       [{ type := .error, error := some env.errMsg, timestamp := now }])

/-- `stop()`: no-op success when already stopped (note: it returns before
touching the registry); otherwise close the socket, null out server and
port, clear the registry, publish `stopped`. -/
def stop (now : Str) (st : EngineState) :
    Bool × EngineState × List ProxyEvent :=
  if st.server then
    (true, { server := false, routes := [], port := none },
     [{ type := .stopped, timestamp := now }])
  else
    (true, st, [])

/-- Errors `addRoute` raises. -/
inductive AddError
  | invalidName
  | duplicateName
deriving DecidableEq, Repr

/-- Options record of `addRoute`. -/
structure AddOpts where
  taskId : Option Str := none
  targetHost : Option Str := none
deriving DecidableEq, Repr

/-- The route record `addRoute` constructs on success: status `running`,
defaulted target host, url interpolating the engine's current `this.port`,
creation timestamp. -/
def mkRoute (now : Str) (port : Option Nat) (name : Str) (targetPort : Nat)
    (opts : AddOpts) : ProxyRoute :=
  { name := name
    targetPort := targetPort
    targetHost := jsHostOrDefault opts.targetHost
    status := .running
    taskId := opts.taskId
    url := "http://".toList ++ name ++ ".localhost:".toList ++ jsPortString port
    registeredAt := now
    lastAccessed := none }

/-- The `if (!this.server) await this.start()` step of `addRoute`.  The
result of `start` is ignored: `addRoute` proceeds with whatever state
`start` left behind. -/
def autoStart (env : PortEnv) (now : Str) (st : EngineState) :
    EngineState × List ProxyEvent :=
  if st.server then
    (st, [])
  else
    let r := start env now st none
    (r.2.1, r.2.2)

/-- `addRoute(name, targetPort, opts?)`: reject a name failing `SLUG_RE`
(throw `Invalid route name ...`), then a name already present (throw
`Route ... already exists`); auto-start when stopped; build the route with
status `running`, defaulted target host, url interpolating the current
`this.port`, creation timestamp; store it and publish `route:added`. -/
def addRoute (env : PortEnv) (now : Str) (st : EngineState) (name : Str)
    (targetPort : Nat) (opts : AddOpts) :
    Except AddError ProxyRoute × EngineState × List ProxyEvent :=
  if !slugTest name then
    (.error .invalidName, st, [])
  else if (mapGet st.routes name).isSome then
    (.error .duplicateName, st, [])
  else
    let sa := autoStart env now st
    let st1 := sa.1
    let route : ProxyRoute := mkRoute now st1.port name targetPort opts
    (.ok route, { st1 with routes := st1.routes ++ [(name, route)] },
     sa.2 ++ [{ type := .routeAdded, route := some route, timestamp := now }])

/-- `removeRoute(name)`: false when absent; otherwise delete and publish
`route:removed`. -/
def removeRoute (now : Str) (st : EngineState) (name : Str) :
    Bool × EngineState × List ProxyEvent :=
  match mapGet st.routes name with
  | none => (false, st, [])
  | some r =>
      (true, { st with routes := mapDelete st.routes name },
       [{ type := .routeRemoved, route := some r, timestamp := now }])

/-- `updateRouteStatus(name, status)`: mutate status in place if present
and publish `route:status`. -/
def updateRouteStatus (now : Str) (st : EngineState) (name : Str)
    (status : ProxyRouteStatus) :
    Bool × EngineState × List ProxyEvent :=
  match mapGet st.routes name with
  | none => (false, st, [])
  | some r =>
      let r1 := { r with status := status }
      (true,
       { st with routes := st.routes.map (fun kv =>
           if kv.1 == name then (kv.1, r1) else kv) },
       [{ type := .routeStatus, route := some r1, timestamp := now }])

/-- `getRoutes()`: the registry's values in insertion order. -/
def getRoutes (st : EngineState) : List ProxyRoute :=
  st.routes.map (fun kv => kv.2)

/-- `getState()`. -/
def getState (st : EngineState) : ProxyState :=
  { running := st.server, port := st.port, routes := getRoutes st }

/-- The 502 body for an unknown subdomain, concatenated exactly as the
source's template strings are. -/
def unknownRouteBody (sub : Str) (port : Option Nat) : Str :=
  "<html><body style=\"background:#1a1a2e;color:#e0e0e0;font-family:system-ui;padding:2rem\">".toList
    ++ "<h1>502 — Unknown route</h1>".toList
    ++ ("<p>No route registered for <code>".toList ++ sub ++ "</code>.</p>".toList)
    ++ ("<p><a href=\"http://localhost:".toList ++ jsPortString port
          ++ "\" style=\"color:#7c9aff\">View dashboard</a></p>".toList)
    ++ "</body></html>".toList

/-- Observable outcome of `handleRequest`: served locally (routes API or
dashboard page), the 502 unknown-route response, or an outbound proxied
request opened to the backend. -/
inductive HttpResponse
  | apiRoutes (routes : List ProxyRoute)
  | dashboard
  | unknownRoute (status : Nat) (body : Str)
  | forwarded (targetHost : Str) (targetPort : Nat)
deriving DecidableEq, Repr

/-- `handleRequest`: extract the subdomain from the Host header; none ⇒
control surface (`/api/routes` JSON, else the dashboard page); unknown
subdomain ⇒ 502 with the unknown-route body and no outbound connection;
known ⇒ touch `lastAccessed` and open the outbound request to the route's
target. -/
def handleRequest (now : Str) (st : EngineState) (host urlPath : Str) :
    HttpResponse × EngineState :=
  match extractSubdomain host with
  | none =>
      let u := if urlPath.isEmpty then "/".toList else urlPath
      if u == "/api/routes".toList then
        (.apiRoutes (getRoutes st), st)
      else
        (.dashboard, st)
  | some sub =>
      match mapGet st.routes sub with
      | none => (.unknownRoute 502 (unknownRouteBody sub st.port), st)
      | some r =>
          (.forwarded r.targetHost r.targetPort,
           { st with routes := setLastAccessed st.routes sub now })

/-- Observable outcome of `handleUpgrade`: the client socket destroyed with
nothing written (no framed HTTP response), or a raw tunnel opened to the
backend. -/
inductive UpgradeOutcome
  | destroyClient
  | tunnel (targetHost : Str) (targetPort : Nat)
deriving DecidableEq, Repr

/-- `handleUpgrade`: no subdomain or unknown route ⇒ destroy the client
socket; otherwise touch `lastAccessed` and open the tunnel. -/
def handleUpgrade (now : Str) (st : EngineState) (host : Str) :
    UpgradeOutcome × EngineState :=
  match extractSubdomain host with
  | none => (.destroyClient, st)
  | some sub =>
      match mapGet st.routes sub with
      | none => (.destroyClient, st)
      | some r =>
          (.tunnel r.targetHost r.targetPort,
           { st with routes := setLastAccessed st.routes sub now })

/-- The call sequence `start → addRoute → removeRoute → stop` issued in
order by one caller, returning the concatenated published event log
(`EventEmitter.emit` delivers synchronously, in publish order, so the
published log is also the delivery order each subscriber observes). -/
def runStartAddRemoveStop (env : PortEnv) (t1 t2 t3 t4 : Str)
    (pport : Option Nat) (name : Str) (targetPort : Nat) (opts : AddOpts) :
    List ProxyEvent :=
  let s1 := start env t1 initState pport
  let s2 := addRoute env t2 s1.2.1 name targetPort opts
  let s3 := removeRoute t3 s2.2.1 name
  let s4 := stop t4 s3.2.1
  s1.2.2 ++ s2.2.2 ++ s3.2.2 ++ s4.2.2

/-- A sample environment: every probe and every real bind succeeds. -/
def envAllOk : PortEnv :=
  { tryPortOk := fun _ => true, osPort := 0, bindOk := fun _ => true,
    errMsg := [] }

/-- A sample environment exhibiting the check-then-use race: the
bind-and-release probe succeeds but the real `listen` then fails. -/
def envBindFail : PortEnv :=
  { tryPortOk := fun _ => true, osPort := 0, bindOk := fun _ => false,
    errMsg := "EADDRINUSE".toList }

/-- A sample environment where every probe fails and the OS assigns port
54321 for the ephemeral fallback bind. -/
def envProbeFail : PortEnv :=
  { tryPortOk := fun _ => false, osPort := 54321, bindOk := fun _ => true,
    errMsg := [] }

/-! ## Helper lemmas -/

theorem takeWhile_append_all (p : Char → Bool) (l l' : List Char)
    (h : ∀ x ∈ l, p x = true) :
    (l ++ l').takeWhile p = l ++ l'.takeWhile p := by
  induction l with
  | nil => simp
  | cons c cs ih =>
      have hc : p c = true := h c (List.mem_cons_self c cs)
      simp only [List.cons_append, List.takeWhile_cons, hc, if_true]
      rw [ih (fun x hx => h x (List.mem_cons_of_mem c hx))]

theorem dropWhile_append_all (p : Char → Bool) (l l' : List Char)
    (h : ∀ x ∈ l, p x = true) :
    (l ++ l').dropWhile p = l'.dropWhile p := by
  induction l with
  | nil => simp
  | cons c cs ih =>
      have hc : p c = true := h c (List.mem_cons_self c cs)
      simp only [List.cons_append, List.dropWhile_cons, hc, if_true]
      exact ih (fun x hx => h x (List.mem_cons_of_mem c hx))

theorem isSlugChar_ne_dot (c : Char) (h : isSlugChar c = true) :
    (c != '.') = true := by
  cases hc : (c == '.') with
  | false => simp [bne, hc]
  | true =>
      have : c = '.' := by simpa using hc
      subst this
      exact absurd h (by decide)

theorem subPat_all_slugChar (s : Str) (h : subPat s = true) :
    ∀ x ∈ s, isSlugChar x = true := by
  match s with
  | [] => exact absurd h (by decide)
  | c :: rest =>
      simp only [subPat, Bool.and_eq_true] at h
      intro x hx
      rcases List.mem_cons.mp hx with hxc | hxr
      · subst hxc
        simp [isSlugChar, h.1]
      · exact List.all_eq_true.mp h.2 x hxr

theorem slugTest_subPat (s : Str) (h : slugTest s = true) : subPat s = true := by
  match s with
  | [] => exact absurd h (by decide)
  | c :: rest =>
      simp only [slugTest, Bool.and_eq_true] at h
      simp only [subPat, Bool.and_eq_true]
      refine ⟨h.1, ?_⟩
      have htail := h.2
      simp only [slugTail] at htail
      rcases Bool.or_eq_true_iff.mp htail with hempty | hfull
      · have : rest = [] := by simpa using hempty
        simp [this]
      · exact ((Bool.and_eq_true _ _).mp hfull).1

theorem extract_complete (sub pp : Str) (hs : subPat sub = true)
    (hp : portPart pp = true) :
    extractSubdomain (sub ++ '.' :: ("localhost".toList ++ pp)) = some sub := by
  have hall : ∀ x ∈ sub, (x != '.') = true :=
    fun x hx => isSlugChar_ne_dot x (subPat_all_slugChar sub hs x hx)
  have htw : (sub ++ '.' :: ("localhost".toList ++ pp)).takeWhile
      (fun c => c != '.') = sub := by
    rw [takeWhile_append_all _ _ _ hall]
    simp [List.takeWhile_cons]
  have hdw : (sub ++ '.' :: ("localhost".toList ++ pp)).dropWhile
      (fun c => c != '.') = '.' :: ("localhost".toList ++ pp) := by
    rw [dropWhile_append_all _ _ _ hall]
    simp [List.dropWhile_cons]
  have htake : ("localhost".toList ++ pp).take 9 = "localhost".toList := by
    have h9 : ("localhost".toList).length = 9 := by decide
    rw [← h9, List.take_left]
  have hdrop : ("localhost".toList ++ pp).drop 9 = pp := by
    have h9 : ("localhost".toList).length = 9 := by decide
    rw [← h9, List.drop_left]
  simp only [extractSubdomain, htw, hdw, hs, if_true, htake, hdrop, hp,
    beq_self_eq_true, Bool.and_self, if_true]

theorem extract_sound (host sub : Str) (h : extractSubdomain host = some sub) :
    subPat sub = true ∧ ∃ pp, portPart pp = true ∧
      host = sub ++ '.' :: ("localhost".toList ++ pp) := by
  unfold extractSubdomain at h
  by_cases hs : subPat (host.takeWhile (fun c => c != '.')) = true
  · simp only [hs, if_true] at h
    split at h
    next r2 heq =>
      split at h
      next hcond =>
        have hsub : host.takeWhile (fun c => c != '.') = sub :=
          Option.some.inj h
        have hand := (Bool.and_eq_true _ _).mp hcond
        have htake : r2.take 9 = "localhost".toList := by
          have := hand.1
          exact eq_of_beq this
        refine ⟨hsub ▸ hs, r2.drop 9, hand.2, ?_⟩
        have hsplit : host = host.takeWhile (fun c => c != '.')
            ++ host.dropWhile (fun c => c != '.') :=
          (List.takeWhile_append_dropWhile _ _).symm
        rw [hsplit, hsub, heq, ← htake, List.take_append_drop]
      next => exact absurd h (by simp)
    next => exact absurd h (by simp)
  · simp only [Bool.not_eq_true] at hs
    simp [hs] at h

theorem mapGet_append_self (m : List (Str × ProxyRoute)) (k : Str)
    (v : ProxyRoute) (h : mapGet m k = none) :
    mapGet (m ++ [(k, v)]) k = some v := by
  induction m with
  | nil => simp [mapGet, List.find?]
  | cons kv m ih =>
      simp only [mapGet, List.cons_append, List.find?] at h ⊢
      cases hkv : (kv.1 == k) with
      | true => simp [hkv] at h
      | false =>
          simp only [hkv] at h ⊢
          exact ih h

theorem autoStart_of_running (env : PortEnv) (now : Str) (st : EngineState)
    (h : st.server = true) : autoStart env now st = (st, []) := by
  simp [autoStart, h]

theorem autoStart_of_stopped_ok (env : PortEnv) (now : Str) (st : EngineState)
    (h : st.server = false)
    (hb : env.bindOk (pickAvailablePort env DEFAULT_PORTS) = true) :
    autoStart env now st =
      ({ st with server := true,
                 port := some (pickAvailablePort env DEFAULT_PORTS) },
       [{ type := .started, timestamp := now }]) := by
  have hc : buildCandidates none = DEFAULT_PORTS := rfl
  simp only [autoStart, start, h, Bool.false_eq_true, if_false, hc, hb,
    if_true]

theorem autoStart_routes (env : PortEnv) (now : Str) (st : EngineState) :
    (autoStart env now st).1.routes = st.routes := by
  unfold autoStart start
  by_cases h : st.server = true
  · simp [h]
  · simp only [Bool.not_eq_true] at h
    simp only [h, Bool.false_eq_true, if_false]
    by_cases hb : env.bindOk (pickAvailablePort env (buildCandidates none)) = true
    · simp [hb]
    · simp only [Bool.not_eq_true] at hb
      simp [hb]

theorem addRoute_invalid (env : PortEnv) (now : Str) (st : EngineState)
    (name : Str) (tp : Nat) (opts : AddOpts) (h : slugTest name = false) :
    addRoute env now st name tp opts = (.error .invalidName, st, []) := by
  simp [addRoute, h]

theorem addRoute_dup (env : PortEnv) (now : Str) (st : EngineState)
    (name : Str) (tp : Nat) (opts : AddOpts) (h1 : slugTest name = true)
    (h2 : (mapGet st.routes name).isSome = true) :
    addRoute env now st name tp opts = (.error .duplicateName, st, []) := by
  simp [addRoute, h1, h2]

theorem addRoute_ok (env : PortEnv) (now : Str) (st : EngineState)
    (name : Str) (tp : Nat) (opts : AddOpts) (h1 : slugTest name = true)
    (h2 : mapGet st.routes name = none) :
    addRoute env now st name tp opts =
      (.ok (mkRoute now (autoStart env now st).1.port name tp opts),
       { (autoStart env now st).1 with
           routes := (autoStart env now st).1.routes
             ++ [(name, mkRoute now (autoStart env now st).1.port name tp opts)] },
       (autoStart env now st).2
         ++ [{ type := .routeAdded,
               route := some (mkRoute now (autoStart env now st).1.port name tp opts),
               timestamp := now }]) := by
  simp [addRoute, h1, h2]

/-! ## C1 -/

/-- C1 (counterexample): the Host header `a-.localhost` is not of the form
`<name>.localhost` for any `name` matching the slug grammar (the candidate
`a-` has a trailing hyphen, so `SLUG_RE` rejects it), yet subdomain
extraction yields `a-`, and the request is answered with the 502
unknown-route response rather than being treated as addressed to the
proxy's own control surface. -/
theorem c1_counterexample :
    extractSubdomain "a-.localhost".toList = some "a-".toList ∧
    slugTest "a-".toList = false ∧
    (handleRequest "t".toList initState "a-.localhost".toList "/".toList).1
      = .unknownRoute 502 (unknownRouteBody "a-".toList none) := by
  decide

/-- C1 (amended): subdomain extraction matches the Host header against
`^([a-z0-9][a-z0-9-]*[a-z0-9]?)\.localhost(:\d+)?$`, whose capture group
is slightly wider than the slug grammar (it also admits a single trailing
hyphen).  For every name matching the slug grammar and every optional
numeric port suffix, extraction on `<name>.localhost[:<port>]` returns
exactly that name; more generally, extraction returns `sub` exactly when
the host decomposes as `<sub>.localhost[:<port>]` with `sub` nonempty,
starting with `[a-z0-9]`, over the alphabet `[a-z0-9-]`.  When extraction
yields no subdomain the request is handled by the proxy's own control
surface (routes API or dashboard) with no state change, and when it yields
a registered subdomain the request is forwarded to that route's target. -/
theorem c1_subdomain_extraction :
    (∀ name pp, slugTest name = true → portPart pp = true →
       extractSubdomain (name ++ '.' :: ("localhost".toList ++ pp))
         = some name) ∧
    (∀ sub pp, subPat sub = true → portPart pp = true →
       extractSubdomain (sub ++ '.' :: ("localhost".toList ++ pp))
         = some sub) ∧
    (∀ host sub, extractSubdomain host = some sub →
       subPat sub = true ∧ ∃ pp, portPart pp = true ∧
         host = sub ++ '.' :: ("localhost".toList ++ pp)) ∧
    (∀ now st host u, extractSubdomain host = none →
       ((handleRequest now st host u).1 = .apiRoutes (getRoutes st) ∨
        (handleRequest now st host u).1 = .dashboard) ∧
       (handleRequest now st host u).2 = st) ∧
    (∀ now st host u sub r, extractSubdomain host = some sub →
       mapGet st.routes sub = some r →
       (handleRequest now st host u).1
         = .forwarded r.targetHost r.targetPort) := by
  refine ⟨?_, ?_, ?_, ?_, ?_⟩
  · intro name pp hn hp
    exact extract_complete name pp (slugTest_subPat name hn) hp
  · intro sub pp hs hp
    exact extract_complete sub pp hs hp
  · intro host sub h
    exact extract_sound host sub h
  · intro now st host u h
    simp only [handleRequest, h]
    constructor
    · split <;> split <;> first | exact Or.inl rfl | exact Or.inr rfl
    · split <;> split <;> rfl
  · intro now st host u sub r h1 h2
    simp [handleRequest, h1, h2]

/-- C1 (witness): a concrete instance of the amended theorem. -/
theorem c1_witness :
    extractSubdomain ("my-app".toList ++ '.' :: ("localhost".toList ++ []))
      = some "my-app".toList :=
  c1_subdomain_extraction.1 "my-app".toList [] (by decide) (by decide)

/-! ## C2 -/

theorem unknownRouteBody_phrase (sub : Str) (p : Option Nat) :
    ∃ s t, unknownRouteBody sub p = s ++ "Unknown route".toList ++ t := by
  refine
    ⟨"<html><body style=\"background:#1a1a2e;color:#e0e0e0;font-family:system-ui;padding:2rem\">".toList
        ++ "<h1>502 — ".toList,
      "</h1>".toList
        ++ ("<p>No route registered for <code>".toList ++ sub
              ++ "</code>.</p>".toList)
        ++ ("<p><a href=\"http://localhost:".toList ++ jsPortString p
              ++ "\" style=\"color:#7c9aff\">View dashboard</a></p>".toList)
        ++ "</body></html>".toList, ?_⟩
  have hsplit : "<h1>502 — Unknown route</h1>".toList
      = "<h1>502 — ".toList ++ ("Unknown route".toList ++ "</h1>".toList) := by
    decide
  unfold unknownRouteBody
  rw [hsplit]
  simp [List.append_assoc]

/-- C2: a request whose Host yields a subdomain with no registered route is
answered with status 502 and the unknown-route body, which contains the
literal phrase "Unknown route"; the outcome is not a forward, so no
outbound connection to any backend is attempted, and the engine state is
unchanged. -/
theorem c2_unknown_route_502 (now : Str) (st : EngineState) (host u sub : Str)
    (hsub : extractSubdomain host = some sub)
    (hmiss : mapGet st.routes sub = none) :
    (handleRequest now st host u).1
        = .unknownRoute 502 (unknownRouteBody sub st.port) ∧
    (∃ s t, unknownRouteBody sub st.port = s ++ "Unknown route".toList ++ t) ∧
    (∀ th tp, (handleRequest now st host u).1 ≠ .forwarded th tp) ∧
    (handleRequest now st host u).2 = st := by
  have hmain : handleRequest now st host u
      = (.unknownRoute 502 (unknownRouteBody sub st.port), st) := by
    simp [handleRequest, hsub, hmiss]
  refine ⟨by rw [hmain], unknownRouteBody_phrase sub st.port, ?_, by rw [hmain]⟩
  intro th tp
  rw [hmain]
  simp

/-- C2 (witness): concrete instance on the empty registry. -/
theorem c2_witness :
    (handleRequest "t".toList initState "unknown.localhost".toList
        "/".toList).1
      = .unknownRoute 502 (unknownRouteBody "unknown".toList initState.port) :=
  (c2_unknown_route_502 "t".toList initState "unknown.localhost".toList
    "/".toList "unknown".toList (by decide) (by decide)).1

/-! ## C3 -/

/-- C3: for every name violating the slug grammar, `addRoute` fails with
the invalid-name error and the whole engine state — in particular the
route registry — is unchanged, with no event published. -/
theorem c3_invalid_name (env : PortEnv) (now : Str) (st : EngineState)
    (name : Str) (tp : Nat) (opts : AddOpts) (h : slugTest name = false) :
    addRoute env now st name tp opts = (.error .invalidName, st, []) ∧
    (addRoute env now st name tp opts).2.1.routes = st.routes := by
  have he := addRoute_invalid env now st name tp opts h
  exact ⟨he, by rw [he]⟩

/-- C3 (witness): names with uppercase letters, a leading hyphen, an
embedded space, and the empty name are all rejected with the registry
untouched. -/
theorem c3_witness :
    slugTest "UPPERCASE".toList = false ∧
    slugTest "-leading".toList = false ∧
    slugTest "has spaces".toList = false ∧
    slugTest ([] : Str) = false ∧
    addRoute envAllOk "t".toList initState "UPPERCASE".toList 3000 {}
      = (.error .invalidName, initState, []) :=
  ⟨by decide, by decide, by decide, by decide,
   (c3_invalid_name envAllOk "t".toList initState "UPPERCASE".toList 3000 {}
     (by decide)).1⟩

/-! ## C4 -/

/-- C4: for a name matching the slug grammar and not yet registered, the
first `addRoute` succeeds and stores the route under the name, and a
second `addRoute` with the same name (any target port, options,
environment, time) fails with the duplicate-name error leaving the state —
and hence the first registration — in place. -/
theorem c4_add_once (env env2 : PortEnv) (now now2 : Str) (st : EngineState)
    (name : Str) (tp tp2 : Nat) (opts opts2 : AddOpts)
    (hname : slugTest name = true) (hfresh : mapGet st.routes name = none) :
    ∃ r st1 evs,
      addRoute env now st name tp opts = (.ok r, st1, evs) ∧
      mapGet st1.routes name = some r ∧
      addRoute env2 now2 st1 name tp2 opts2
        = (.error .duplicateName, st1, []) := by
  have hok := addRoute_ok env now st name tp opts hname hfresh
  have hfresh1 : mapGet (autoStart env now st).1.routes name = none := by
    rw [autoStart_routes]
    exact hfresh
  have hget : mapGet ((autoStart env now st).1.routes
        ++ [(name, mkRoute now (autoStart env now st).1.port name tp opts)])
        name
      = some (mkRoute now (autoStart env now st).1.port name tp opts) :=
    mapGet_append_self _ _ _ hfresh1
  refine ⟨_, _, _, hok, hget, ?_⟩
  exact addRoute_dup env2 now2 _ name tp2 opts2 hname (by simp [hget])

/-- C4 (witness): concrete double registration of `app`. -/
theorem c4_witness :
    ∃ r st1 evs,
      addRoute envAllOk "t0".toList initState "app".toList 3000 {}
        = (.ok r, st1, evs) ∧
      mapGet st1.routes "app".toList = some r ∧
      addRoute envAllOk "t1".toList st1 "app".toList 3001 {}
        = (.error .duplicateName, st1, []) :=
  c4_add_once envAllOk envAllOk "t0".toList "t1".toList initState
    "app".toList 3000 3001 {} {} (by decide) (by decide)

/-! ## C5 -/

/-- C5: a successful `addRoute` (engine already running, or the implicit
auto-start's bind succeeding) returns a route with status `running`,
target host defaulting to the loopback address when unspecified,
`registeredAt` set to the creation time, and url
`http://<name>.localhost:<p>` where `p` is the engine's listening port at
the moment of creation — the port chosen by the implicit auto-start when
`addRoute` is called while the engine is stopped. -/
theorem c5_route_fields (env : PortEnv) (now : Str) (st : EngineState)
    (name : Str) (tp : Nat) (opts : AddOpts)
    (hname : slugTest name = true) (hfresh : mapGet st.routes name = none)
    (hwf : st.server = true → st.port.isSome = true)
    (hstart : st.server = true ∨
      env.bindOk (pickAvailablePort env DEFAULT_PORTS) = true) :
    ∃ r st1 evs p,
      addRoute env now st name tp opts = (.ok r, st1, evs) ∧
      st1.server = true ∧ st1.port = some p ∧
      r.status = .running ∧
      (opts.targetHost = none → r.targetHost = "127.0.0.1".toList) ∧
      r.registeredAt = now ∧
      r.url = "http://".toList ++ name ++ ".localhost:".toList ++ natStr p := by
  have hok := addRoute_ok env now st name tp opts hname hfresh
  by_cases hs : st.server = true
  · obtain ⟨p, hp⟩ := Option.isSome_iff_exists.mp (hwf hs)
    have ha := autoStart_of_running env now st hs
    refine ⟨_, _, _, p, hok, ?_, ?_, rfl, ?_, rfl, ?_⟩
    · simp [ha, hs]
    · simp [ha, hp]
    · intro h
      simp [mkRoute, jsHostOrDefault, h]
    · simp [mkRoute, ha, hp, jsPortString]
  · have hsf : st.server = false := by simpa using hs
    have hb : env.bindOk (pickAvailablePort env DEFAULT_PORTS) = true := by
      rcases hstart with h | h
      · exact absurd h hs
      · exact h
    have ha := autoStart_of_stopped_ok env now st hsf hb
    refine ⟨_, _, _, pickAvailablePort env DEFAULT_PORTS, hok, ?_, ?_, rfl,
      ?_, rfl, ?_⟩
    · simp [ha]
    · simp [ha]
    · intro h
      simp [mkRoute, jsHostOrDefault, h]
    · simp [mkRoute, ha, jsPortString]

/-- C5 (witness): auto-start from the stopped initial state picks port 9000
and the created route's url embeds it. -/
theorem c5_witness :
    ∃ r st1 evs p,
      addRoute envAllOk "t".toList initState "app".toList 3000 {}
        = (.ok r, st1, evs) ∧
      st1.server = true ∧ st1.port = some p ∧
      r.status = .running ∧
      (({} : AddOpts).targetHost = none → r.targetHost = "127.0.0.1".toList) ∧
      r.registeredAt = "t".toList ∧
      r.url = "http://".toList ++ "app".toList ++ ".localhost:".toList
        ++ natStr p :=
  c5_route_fields envAllOk "t".toList initState "app".toList 3000 {}
    (by decide) (by decide) (by decide) (Or.inr (by decide))

/-! ## C10 -/

/-- C10: a failing `addRoute` — invalid name or duplicate name — changes
nothing: the returned state is exactly the input state (same running flag,
port and registry) and no event is published; both checks precede the
auto-start step, so a failing call on a stopped engine never starts it. -/
theorem c10_failed_add_no_effect (env : PortEnv) (now : Str)
    (st : EngineState) (name : Str) (tp : Nat) (opts : AddOpts) :
    (slugTest name = false →
       addRoute env now st name tp opts = (.error .invalidName, st, [])) ∧
    (slugTest name = true → (mapGet st.routes name).isSome = true →
       addRoute env now st name tp opts = (.error .duplicateName, st, [])) :=
  ⟨fun h => addRoute_invalid env now st name tp opts h,
   fun h1 h2 => addRoute_dup env now st name tp opts h1 h2⟩

/-- C10 (witness): an invalid add on the stopped initial state leaves the
engine stopped (no auto-start) with the initial state intact. -/
theorem c10_witness :
    addRoute envAllOk "t".toList initState "bad name".toList 3000 {}
      = (.error .invalidName, initState, []) ∧
    (addRoute envAllOk "t".toList initState "bad name".toList 3000 {}).2.1.server
      = false :=
  have h := (c10_failed_add_no_effect envAllOk "t".toList initState
    "bad name".toList 3000 {}).1 (by decide)
  ⟨h, by rw [h]; rfl⟩

/-! ## C6 -/

/-- C6 (counterexample): when the implicit auto-start's real bind fails
inside `addRoute` (the check-then-use race), the route is still registered
while the engine remains stopped; `stop()` on the already-stopped engine
then completes (returns ok) without clearing the registry, so `getState()`
after `stop()` does not equal `{running: false, port: null, routes: []}`,
and the registry is nonempty while the engine is stopped. -/
theorem c6_counterexample :
    ((addRoute envBindFail "t0".toList initState "app".toList 3000 {}).2.1.server
      = false) ∧
    (stop "t1".toList
        (addRoute envBindFail "t0".toList initState "app".toList 3000 {}).2.1).1
      = true ∧
    getState ((stop "t1".toList
        (addRoute envBindFail "t0".toList initState "app".toList
          3000 {}).2.1).2.1)
      ≠ { running := false, port := none, routes := [] } := by
  decide

/-- C6 (amended): `stop()` completing on an engine that was running (or
whose registry was already empty, with port cleared as it is in every
state reachable without a bind failure) leaves
`{running: false, port: null, routes: []}` no matter how many routes were
registered, the registry being cleared in the same step as the socket
shutdown.  The unrestricted registry-empty-when-stopped invariant fails
only through a failed auto-start bind inside `addRoute`, which registers a
route while the engine stays stopped and `stop()` then no-ops. -/
theorem c6_stop_resets (now : Str) (st : EngineState)
    (hwf : st.server = false → st.port = none)
    (h : st.server = true ∨ st.routes = []) :
    (stop now st).1 = true ∧
    getState ((stop now st).2.1)
      = { running := false, port := none, routes := [] } := by
  by_cases hs : st.server = true
  · simp [stop, hs, getState, getRoutes]
  · have hsf : st.server = false := by simpa using hs
    have hroutes : st.routes = [] := by
      rcases h with h | h
      · exact absurd h hs
      · exact h
    have hport := hwf hsf
    simp [stop, hsf, getState, getRoutes, hroutes, hport]

/-- C6 (witness): stopping a running engine holding one route resets the
state snapshot completely. -/
theorem c6_witness :
    (stop "t1".toList
        (addRoute envAllOk "t0".toList initState "cleanup".toList
          3000 {}).2.1).1 = true ∧
    getState ((stop "t1".toList
        (addRoute envAllOk "t0".toList initState "cleanup".toList
          3000 {}).2.1).2.1)
      = { running := false, port := none, routes := [] } :=
  c6_stop_resets "t1".toList _ (by decide) (Or.inl (by decide))

/-! ## C7 -/

theorem pickLoop_first (tryOk : Nat → Bool) :
    ∀ (cands : List Nat) (i : Nat) (hi : i < cands.length),
      tryOk (cands.get ⟨i, hi⟩) = true →
      (∀ j (hj : j < i), tryOk (cands.get ⟨j, Nat.lt_trans hj hi⟩) = false) →
      pickLoop tryOk cands = some (cands.get ⟨i, hi⟩) := by
  intro cands
  induction cands with
  | nil =>
      intro i hi
      exact absurd hi (by simp)
  | cons p rest ih =>
      intro i hi hyes hno
      cases i with
      | zero =>
          simp only [List.get] at hyes ⊢
          simp [pickLoop, hyes]
      | succ n =>
          have hp : tryOk p = false := by
            have h0 := hno 0 (Nat.succ_pos n)
            simpa using h0
          have hi' : n < rest.length := by
            simpa using hi
          have hyes' : tryOk (rest.get ⟨n, hi'⟩) = true := by
            simpa using hyes
          have hno' : ∀ j (hj : j < n),
              tryOk (rest.get ⟨j, Nat.lt_trans hj hi'⟩) = false := by
            intro j hj
            have hj1 := hno (j + 1) (Nat.succ_lt_succ hj)
            simpa using hj1
          have hrec := ih n hi' hyes' hno'
          simp [pickLoop, hp, hrec]

theorem pickLoop_none (tryOk : Nat → Bool) :
    ∀ cands : List Nat, (∀ p ∈ cands, tryOk p = false) →
      pickLoop tryOk cands = none := by
  intro cands
  induction cands with
  | nil => intro _; rfl
  | cons p rest ih =>
      intro h
      have hp : tryOk p = false := h p (List.mem_cons_self p rest)
      simp [pickLoop, hp, ih (fun q hq => h q (List.mem_cons_of_mem p hq))]

/-- C7: the candidate list is the caller's preferred port (when given)
followed by the fixed default list of four ports; port selection probes the
candidates in order and returns the first whose bind-and-release probe
succeeds; when every candidate's probe fails it binds an ephemeral port and
returns the port the OS allocated. -/
theorem c7_port_selection (env : PortEnv) :
    DEFAULT_PORTS = [9000, 9001, 9002, 9100] ∧
    (∀ p, p ≠ 0 → buildCandidates (some p) = p :: DEFAULT_PORTS) ∧
    buildCandidates none = DEFAULT_PORTS ∧
    (∀ (cands : List Nat) (i : Nat) (hi : i < cands.length),
       env.tryPortOk (cands.get ⟨i, hi⟩) = true →
       (∀ j (hj : j < i),
          env.tryPortOk (cands.get ⟨j, Nat.lt_trans hj hi⟩) = false) →
       pickAvailablePort env cands = cands.get ⟨i, hi⟩) ∧
    (∀ cands : List Nat, (∀ p ∈ cands, env.tryPortOk p = false) →
       env.osPort ≠ 0 → pickAvailablePort env cands = env.osPort) := by
  refine ⟨rfl, ?_, rfl, ?_, ?_⟩
  · intro p hp
    simp [buildCandidates, hp]
  · intro cands i hi hyes hno
    unfold pickAvailablePort
    rw [pickLoop_first env.tryPortOk cands i hi hyes hno]
  · intro cands hall hos
    unfold pickAvailablePort
    rw [pickLoop_none env.tryPortOk cands hall]
    simp [hos]

/-- C7 (witness): with all probes succeeding the first default port 9000 is
chosen; with all probes failing the OS-assigned ephemeral port is
returned. -/
theorem c7_witness :
    pickAvailablePort envAllOk DEFAULT_PORTS = 9000 ∧
    pickAvailablePort envProbeFail DEFAULT_PORTS = 54321 :=
  ⟨(c7_port_selection envAllOk).2.2.2.1 DEFAULT_PORTS 0 (by decide)
      (by decide) (fun j hj => absurd hj (Nat.not_lt_zero j)),
   (c7_port_selection envProbeFail).2.2.2.2 DEFAULT_PORTS (fun p _ => rfl)
      (by decide)⟩

/-! ## C8 -/

/-- C8: an Upgrade request whose Host yields no subdomain, or a subdomain
with no registered route, has its client connection destroyed at socket
level (the `destroyClient` outcome carries no framed HTTP response) with
the engine state unchanged. -/
theorem c8_upgrade_destroy (now : Str) (st : EngineState) (host : Str)
    (h : extractSubdomain host = none ∨
         ∃ sub, extractSubdomain host = some sub ∧
           mapGet st.routes sub = none) :
    handleUpgrade now st host = (.destroyClient, st) := by
  rcases h with h | ⟨sub, h1, h2⟩
  · simp [handleUpgrade, h]
  · simp [handleUpgrade, h1, h2]

/-- C8 (witness): an upgrade for an unregistered subdomain is destroyed. -/
theorem c8_witness :
    handleUpgrade "t".toList initState "ws-test.localhost:18900".toList
      = (.destroyClient, initState) :=
  c8_upgrade_destroy "t".toList initState "ws-test.localhost:18900".toList
    (Or.inr ⟨"ws-test".toList, by decide, by decide⟩)

/-! ## C9 -/

/-- C9: for the call sequence `start → addRoute → removeRoute → stop`
issued in that order by a single caller from the initial state (with the
start's bind succeeding and a valid fresh name), the published event log is
exactly `started`, `route:added`, `route:removed`, `stopped` in that
order; `EventEmitter.emit` delivers synchronously in publish order, so
subscribers observe the same order. -/
theorem c9_event_order (env : PortEnv) (t1 t2 t3 t4 : Str) (p : Nat)
    (name : Str) (tp : Nat) (opts : AddOpts)
    (hbind : env.bindOk
      (pickAvailablePort env (buildCandidates (some p))) = true)
    (hname : slugTest name = true) :
    (runStartAddRemoveStop env t1 t2 t3 t4 (some p) name tp opts).map
        (fun e => evName e.type)
      = ["started".toList, "route:added".toList, "route:removed".toList,
         "stopped".toList] := by
  unfold runStartAddRemoveStop
  simp [start, initState, hbind, addRoute, autoStart, hname, mapGet,
    removeRoute, stop, mapDelete, List.find?, evName, mkRoute]

/-- C9 (witness): the concrete run on the all-ok environment. -/
theorem c9_witness :
    (runStartAddRemoveStop envAllOk "t1".toList "t2".toList "t3".toList
        "t4".toList (some 18900) "evt-test".toList 3000 {}).map
        (fun e => evName e.type)
      = ["started".toList, "route:added".toList, "route:removed".toList,
         "stopped".toList] :=
  c9_event_order envAllOk "t1".toList "t2".toList "t3".toList "t4".toList
    18900 "evt-test".toList 3000 {} (by decide) (by decide)

/-- C5 (counterexample): when the implicit auto-start's real bind fails,
`addRoute` still succeeds (the result of `start` is ignored) and the
returned route's url interpolates the still-null engine port as the string
`null`, so a successful `addRoute` exists whose url embeds no listening
port at all. -/
theorem c5_counterexample :
    (addRoute envBindFail "t0".toList initState "app".toList 3000 {}).1
      = .ok (mkRoute "t0".toList none "app".toList 3000 {}) ∧
    (mkRoute "t0".toList none "app".toList 3000 {}).url
      = "http://app.localhost:null".toList ∧
    (addRoute envBindFail "t0".toList initState "app".toList 3000 {}).2.1.port
      = none :=
  ⟨rfl, by decide, by decide⟩
